import Mathlib

/-!
# Verification of the cursor_fs financial-disclosure pipeline

Shallow embedding of the repository's Python sources:

* `opendart_service.py` — statement normalization (`format_financial_data`,
  `_parse_amount`, `_create_summary`, `get_financial_statement`)
* `gemini_service.py` — metric extraction and ratio computation
  (`_extract_key_metrics`, `_calculate_ratios`)
* `convert_xml_to_json.py` / `opendart_downloader.py` — bulk-feed (XML) parsing
* `create_database.py` — store ingestion (`INSERT OR REPLACE` upsert)
* `app.py` — company search (`search_company` SQL query)

Amounts are modelled as exact rationals (`ℚ`); the Python floats involved in
the verified statements are all exactly representable, and the 2-digit
rounding is modelled as exact round-half-to-even on rationals.
-/

namespace CursorFs

/-! ## String helpers

Python's `needle in haystack` substring test, `str.replace(',', '')` and
`str.strip()`, modelled on the character lists of the strings. -/

/-- Test `charListStartsWith hay needle` : `needle` is a leading segment of `hay`. -/
def charListStartsWith : List Char → List Char → Bool
  | _, [] => true
  | [], _ :: _ => false
  | a :: as, b :: bs => a == b && charListStartsWith as bs

/-- Test `charListContains hay needle` : `needle` occurs contiguously in `hay`. -/
def charListContains : List Char → List Char → Bool
  | [], needle => needle.isEmpty
  | a :: as, needle => charListStartsWith (a :: as) needle || charListContains as needle

/-- Python's `needle in hay` on strings (contiguous substring test). -/
def strContains (hay needle : String) : Bool :=
  charListContains hay.toList needle.toList

/-- Python's `s.replace(',', '')` (only ever called with a one-char pattern). -/
def removeCommas (s : String) : String :=
  ⟨s.toList.filter (fun c => c ≠ ',')⟩

/-- Python's `s.strip()`: drop leading and trailing whitespace. -/
def pythonStrip (s : String) : String :=
  ⟨((s.toList.dropWhile Char.isWhitespace).reverse.dropWhile Char.isWhitespace).reverse⟩

/-! ## Numeric coercion (`OpenDartService._parse_amount`)

`_parse_amount` strips thousands separators and calls Python's `float()`;
any parse failure (or falsy input) yields `0.0`.  `float()` is modelled by a
decimal parser `parsePyFloat?` over exact rationals: optional surrounding
whitespace, optional sign, digits with optional fraction part, optional
decimal exponent.  (Python additionally accepts `inf`/`nan`, which have no
rational value; they are outside this model.) -/

/-- Numeric value of a digit string (most significant first). -/
def digitsToNat (cs : List Char) : ℕ :=
  cs.foldl (fun n c => 10 * n + (c.toNat - 48)) 0

/-- Unsigned mantissa: `digits`, `digits.digits`, `digits.` or `.digits`. -/
def parseUnsignedDecimal (cs : List Char) : Option ℚ :=
  let intPart := cs.takeWhile Char.isDigit
  let rest := cs.dropWhile Char.isDigit
  match rest with
  | [] => if intPart.isEmpty then none else some (digitsToNat intPart : ℚ)
  | '.' :: frac =>
      if frac.all Char.isDigit && (!intPart.isEmpty || !frac.isEmpty) then
        some ((digitsToNat intPart : ℚ) + (digitsToNat frac : ℚ) / (10 ^ frac.length : ℚ))
      else none
  | _ => none

/-- Split a character list at the first `e`/`E` (exponent marker). -/
def splitAtExpMarker : List Char → List Char × Option (List Char)
  | [] => ([], none)
  | c :: rest =>
    if c == 'e' || c == 'E' then ([], some rest)
    else
      let (m, e) := splitAtExpMarker rest
      (c :: m, e)

/-- Signed decimal integer (for the exponent part). -/
def parseSignedInt (cs : List Char) : Option ℤ :=
  match cs with
  | '+' :: rest => if rest.isEmpty || !rest.all Char.isDigit then none
                   else some (digitsToNat rest : ℤ)
  | '-' :: rest => if rest.isEmpty || !rest.all Char.isDigit then none
                   else some (-(digitsToNat rest : ℤ))
  | _ => if cs.isEmpty || !cs.all Char.isDigit then none
         else some (digitsToNat cs : ℤ)

/-- The finite-value fragment of Python's `float(s)`, as an exact rational. -/
def parsePyFloat? (s : String) : Option ℚ :=
  let cs := (pythonStrip s).toList
  let core : List Char → Option ℚ := fun body =>
    match splitAtExpMarker body with
    | (mant, none) => parseUnsignedDecimal mant
    | (mant, some e) =>
        match parseUnsignedDecimal mant, parseSignedInt e with
        | some m, some ex => some (m * (10 : ℚ) ^ ex)
        | _, _ => none
  match cs with
  | '+' :: rest => core rest
  | '-' :: rest => (core rest).map (fun q => -q)
  | _ => core cs

/-- Model of `OpenDartService._parse_amount`: falsy input and any parse failure
coerce to `0.0`; otherwise commas are stripped and the string parsed. -/
def parseAmount (amountStr : String) : ℚ :=
  if amountStr = "" then 0
  else
    match parsePyFloat? (removeCommas amountStr) with
    | some q => q
    | none => 0

/-! ## Rounding

Python's `round(x, 2)` rounds half-to-even; modelled exactly on `ℚ`. -/

/-- Round to the nearest integer, ties to the even neighbour. -/
def roundHalfToEven (q : ℚ) : ℤ :=
  let f : ℤ := ⌊q⌋
  let r : ℚ := q - (f : ℚ)
  if r < 1/2 then f
  else if 1/2 < r then f + 1
  else if f % 2 = 0 then f else f + 1

/-- Model of `round(x, 2)`: two-fraction-digit rounding, half-to-even. -/
def round2 (q : ℚ) : ℚ :=
  (roundHalfToEven (q * 100) : ℤ) / 100

/-! ## Statement normalization (`opendart_service.py`)

`OpenDartService.format_financial_data` turns the raw OpenDart response into
a canonical structure with three statement buckets plus a summary.  Raw data
are loosely-typed dictionaries; absent keys are modelled with `Option`. -/

/-- One raw line item of the OpenDart response (`raw_data['list']` element);
each field is `item.get(...)`-accessed in the source, hence optional. -/
structure RawItem where
  account_nm : Option String := none
  fs_div : Option String := none
  sj_div : Option String := none
  thstrm_amount : Option String := none
  thstrm_add_amount : Option String := none
  frmtrm_amount : Option String := none
  frmtrm_add_amount : Option String := none
  currency : Option String := none
  stock_code : Option String := none
  thstrm_dt : Option String := none
  reprt_code : Option String := none
deriving Repr, DecidableEq

/-- The raw response dictionary: the keys `format_financial_data` and
`get_financial_statement` test for (`'error' in raw_data`, `'list' in
raw_data`, `data.get('status')`, `data.get('message')`). -/
structure RawResponse where
  error : Option String := none
  status : Option String := none
  message : Option String := none
  list : Option (List RawItem) := none
deriving Repr, DecidableEq

/-- The canonical line item built in `format_financial_data` (`account_data`). -/
structure AccountData where
  account_name : String
  fs_type : String
  statement_type : String
  current_amount : ℚ
  current_accumulated : ℚ
  previous_amount : ℚ
  previous_accumulated : ℚ
  currency : String
deriving Repr, DecidableEq

/-- Build `account_data = {...}` from one raw item, with `_parse_amount` coercion
and the source's `.get` defaults. -/
def toAccountData (i : RawItem) : AccountData :=
  { account_name := i.account_nm.getD ""
    fs_type := i.fs_div.getD ""
    statement_type := i.sj_div.getD ""
    current_amount := parseAmount (i.thstrm_amount.getD "0")
    current_accumulated := parseAmount (i.thstrm_add_amount.getD "0")
    previous_amount := parseAmount (i.frmtrm_amount.getD "0")
    previous_accumulated := parseAmount (i.frmtrm_add_amount.getD "0")
    currency := i.currency.getD "KRW" }

/-- Record `formatted_data['company_info']`. -/
structure CompanyInfo where
  stock_code : String := ""
  report_date : String := ""
  report_type : String := ""
deriving Repr, DecidableEq

/-- Record `formatted_data['financial_statements']`: the three buckets.  Items with
statement-division code `BS` go to `balance_sheet`, `IS` to
`income_statement`, everything else to `cash_flow` (the "other" bucket). -/
structure FinancialStatements where
  balance_sheet : List AccountData := []
  income_statement : List AccountData := []
  cash_flow : List AccountData := []
deriving Repr, DecidableEq

/-- The classification loop of `format_financial_data` (recursion-on-head
form of the append loop; bucket-internal order is source order). -/
def classifyItems : List RawItem → FinancialStatements
  | [] => {}
  | i :: rest =>
    let fs := classifyItems rest
    let sj := i.sj_div.getD ""
    if sj = "BS" then { fs with balance_sheet := toAccountData i :: fs.balance_sheet }
    else if sj = "IS" then { fs with income_statement := toAccountData i :: fs.income_statement }
    else { fs with cash_flow := toAccountData i :: fs.cash_flow }

/-- Record `formatted_data['summary']` (`_create_summary` result). -/
structure Summary where
  total_assets : ℚ := 0
  total_liabilities : ℚ := 0
  total_equity : ℚ := 0
  revenue : ℚ := 0
  net_income : ℚ := 0
deriving Repr, DecidableEq

/-- One step of `_create_summary`'s balance-sheet loop (plain assignment:
a later matching item overwrites an earlier one). -/
def summaryStepBS (s : Summary) (item : AccountData) : Summary :=
  if strContains item.account_name "자산총계" || strContains item.account_name "Total Assets" then
    { s with total_assets := item.current_amount }
  else if strContains item.account_name "부채총계" || strContains item.account_name "Total Liabilities" then
    { s with total_liabilities := item.current_amount }
  else if strContains item.account_name "자본총계" || strContains item.account_name "Total Equity" then
    { s with total_equity := item.current_amount }
  else s

/-- One step of `_create_summary`'s income-statement loop. -/
def summaryStepIS (s : Summary) (item : AccountData) : Summary :=
  if strContains item.account_name "매출액" || strContains item.account_name "Revenue" then
    { s with revenue := item.current_amount }
  else if strContains item.account_name "당기순손익" || strContains item.account_name "Net Income" then
    { s with net_income := item.current_amount }
  else s

/-- Model of `OpenDartService._create_summary`. -/
def createSummary (fs : FinancialStatements) : Summary :=
  fs.income_statement.foldl summaryStepIS (fs.balance_sheet.foldl summaryStepBS {})

/-- The full canonical structure built by `format_financial_data`. -/
structure FormattedData where
  company_info : CompanyInfo
  financial_statements : FinancialStatements
  summary : Summary
deriving Repr, DecidableEq

/-- Result type: `format_financial_data` either returns the raw response unchanged (the
source-error passthrough `if 'error' in raw_data: return raw_data`) or the
canonical structure. -/
inductive FormatResult where
  | sourceError (raw : RawResponse)
  | ok (data : FormattedData)
deriving Repr, DecidableEq

/-- The canonical structure for a non-error response: company metadata from
the first line item (when present), the three classified buckets, and the
summary. -/
def mkFormatted (raw : RawResponse) : FormattedData :=
  let companyInfo : CompanyInfo :=
    match raw.list with
    | some (first :: _) =>
        { stock_code := first.stock_code.getD ""
          report_date := first.thstrm_dt.getD ""
          report_type := first.reprt_code.getD "" }
    | _ => {}
  let fs := classifyItems (raw.list.getD [])
  { company_info := companyInfo
    financial_statements := fs
    summary := createSummary fs }

/-- Model of `OpenDartService.format_financial_data`. -/
def formatFinancialData (raw : RawResponse) : FormatResult :=
  if raw.error.isSome then .sourceError raw
  else .ok (mkFormatted raw)

/-- The status handling of `OpenDartService.get_financial_statement` on a
decoded response body: status `"000"` passes the data through, any other
status is turned into `{'error': message-or-default}`.  (The HTTP transport
and its failure branches are outside the embedding.) -/
def getFinancialStatement (data : RawResponse) : RawResponse :=
  if data.status = some "000" then data
  else { error := some (data.message.getD "알 수 없는 오류") }

/-! ## Metric extraction (`gemini_service.py`)

`GeminiService._extract_key_metrics` scans the canonical buckets with
substring tests and fills per-metric `{current, previous}` pairs; each hit
is a plain dict assignment, so a later matching line overwrites an earlier
one.  `_calculate_ratios` derives the five ratios with zero-denominator
guards. -/

/-- Canonical balance-sheet metric names. -/
inductive BSMetric where
  | total_assets | total_equity | total_liabilities | current_assets | current_liabilities
deriving Repr, DecidableEq

/-- Canonical income-statement metric names. -/
inductive ISMetric where
  | revenue | operating_income | net_income | gross_profit
deriving Repr, DecidableEq

/-- The `if/elif` chain of the balance-sheet loop: which metric (if any)
a line item's `account_name` is assigned to. -/
def bsBranch (name : String) : Option BSMetric :=
  if strContains name "자산총계" || strContains name "자산 총계" then some .total_assets
  else if strContains name "자본총계" || strContains name "자본 총계" then some .total_equity
  else if strContains name "부채총계" || strContains name "부채 총계" then some .total_liabilities
  else if strContains name "유동자산" then some .current_assets
  else if strContains name "유동부채" then some .current_liabilities
  else none

/-- The `if/elif` chain of the income-statement loop. -/
def isBranch (name : String) : Option ISMetric :=
  if strContains name "매출액" || strContains name "수익(매출액)" then some .revenue
  else if strContains name "영업이익" then some .operating_income
  else if strContains name "당기순이익" then some .net_income
  else if strContains name "매출총이익" then some .gross_profit
  else none

/-- One loop iteration of `_extract_key_metrics`: when the `if/elif` chain
`sel` selects a metric for the item, the plain dict assignment stores the
item's value `val` under that metric (overwriting any earlier value). -/
def updateStep {α γ β : Type*} [DecidableEq γ] (sel : α → Option γ) (val : α → β)
    (acc : γ → Option β) (a : α) : γ → Option β :=
  match sel a with
  | some g => Function.update acc g (some (val a))
  | none => acc

/-- The pair a metric stores: `{'current': ..., 'previous': ...}`. -/
def itemAmounts (i : AccountData) : ℚ × ℚ :=
  (i.current_amount, i.previous_amount)

/-- The balance-sheet metric mapping built by `_extract_key_metrics`
(`metrics['balance_sheet']`), as a partial map from canonical metric to the
`{current, previous}` pair. -/
def extractBS (items : List AccountData) : BSMetric → Option (ℚ × ℚ) :=
  items.foldl (updateStep (fun i => bsBranch i.account_name) itemAmounts) (fun _ => none)

/-- The income-statement metric mapping (`metrics['income_statement']`). -/
def extractIS (items : List AccountData) : ISMetric → Option (ℚ × ℚ) :=
  items.foldl (updateStep (fun i => isBranch i.account_name) itemAmounts) (fun _ => none)

/-- Record `metrics['ratios']`: each ratio is present only when its branch in
`_calculate_ratios` fires. -/
structure Ratios where
  debt_to_equity_ratio : Option ℚ := none
  equity_ratio : Option ℚ := none
  current_ratio : Option ℚ := none
  roe : Option ℚ := none
  revenue_growth_rate : Option ℚ := none
deriving Repr, DecidableEq

/-- Model of `GeminiService._calculate_ratios`, on the two metric mappings.  Each
branch requires its inputs to be present (`'x' in bs`) and its denominator
non-zero; note the `equity_ratio` branch guards on `total_assets != 0`, its
own denominator, not on `total_equity`. -/
def calculateRatios (bs : BSMetric → Option (ℚ × ℚ)) (inc : ISMetric → Option (ℚ × ℚ)) :
    Ratios :=
  { debt_to_equity_ratio :=
      match bs .total_liabilities, bs .total_equity with
      | some tl, some te => if te.1 ≠ 0 then some (round2 (tl.1 / te.1 * 100)) else none
      | _, _ => none
    equity_ratio :=
      match bs .total_equity, bs .total_assets with
      | some te, some ta => if ta.1 ≠ 0 then some (round2 (te.1 / ta.1 * 100)) else none
      | _, _ => none
    current_ratio :=
      match bs .current_assets, bs .current_liabilities with
      | some ca, some cl => if cl.1 ≠ 0 then some (round2 (ca.1 / cl.1 * 100)) else none
      | _, _ => none
    roe :=
      match inc .net_income, bs .total_equity with
      | some ni, some te => if te.1 ≠ 0 then some (round2 (ni.1 / te.1 * 100)) else none
      | _, _ => none
    revenue_growth_rate :=
      match inc .revenue with
      | some rev => if rev.2 ≠ 0 then some (round2 ((rev.1 - rev.2) / rev.2 * 100)) else none
      | none => none }

/-- The full `key_metrics` value of `_extract_key_metrics`. -/
structure KeyMetrics where
  balance_sheet : BSMetric → Option (ℚ × ℚ)
  income_statement : ISMetric → Option (ℚ × ℚ)
  ratios : Ratios

/-- Model of `GeminiService._extract_key_metrics`. -/
def extractKeyMetrics (balanceSheet incomeStatement : List AccountData) : KeyMetrics :=
  let bs := extractBS balanceSheet
  let inc := extractIS incomeStatement
  { balance_sheet := bs, income_statement := inc, ratios := calculateRatios bs inc }

/-! ## Bulk-feed parsing (`convert_xml_to_json.py`, `opendart_downloader.py`)

The feed is an XML document; entity records are elements tagged `list`.
`ElementTree`'s `root.findall('.//list')` returns every proper descendant
with that tag in document order, `root.find(t)` the first direct child. -/

/-- An XML element: tag, text, child elements. -/
inductive XmlNode where
  | node (tag : String) (text : Option String) (children : List XmlNode)
deriving Repr

/-- Element tag. -/
def XmlNode.tag : XmlNode → String
  | .node t _ _ => t

/-- Element text. -/
def XmlNode.text : XmlNode → Option String
  | .node _ tx _ => tx

/-- Child elements. -/
def XmlNode.children : XmlNode → List XmlNode
  | .node _ _ cs => cs

mutual

/-- All elements of a subtree (the root of the subtree included) carrying
the given tag, in document order. -/
def nodesWithTag (t : String) : XmlNode → List XmlNode
  | .node tg tx cs =>
      (if tg = t then [XmlNode.node tg tx cs] else []) ++ nodesWithTagList t cs

/-- Extend `nodesWithTag` over a forest. -/
def nodesWithTagList (t : String) : List XmlNode → List XmlNode
  | [] => []
  | c :: cs => nodesWithTag t c ++ nodesWithTagList t cs

end

/-- Model of `root.findall('.//tag')`: every proper descendant with the tag. -/
def findallDesc (t : String) (root : XmlNode) : List XmlNode :=
  nodesWithTagList t root.children

/-- Model of `root.find(tag)`: first direct child with the tag. -/
def findChild (t : String) (root : XmlNode) : Option XmlNode :=
  root.children.find? (fun c : XmlNode => c.tag = t)

/-- Build `item_data = {child.tag: child.text for child in item}` (flat record of
an entity node; key-collision behaviour of the dict is irrelevant to the
claims and kept as the raw association list). -/
def itemToDict (n : XmlNode) : List (String × Option String) :=
  n.children.map (fun c => (c.tag, c.text))

/-- Model of `convert_xml_to_json` (the standalone converter), on a parsed tree:
searches the whole document for entity nodes and returns `False`
(modelled `none`, the ParseError outcome) when there are none. -/
def convertXmlToJson (root : XmlNode) : Option (List (List (String × Option String))) :=
  let items := findallDesc "list" root
  if items.isEmpty then none
  else some (items.map itemToDict)

/-- The JSON structure built by `OpenDartDownloader._xml_to_json`. -/
structure JsonData where
  result : List (String × Option String)
  list : List (List (String × Option String))
deriving Repr, DecidableEq

/-- Model of `OpenDartDownloader._xml_to_json`, on a parsed tree.  The Python
function returns `None` only when the underlying XML file fails to parse
(its `except` branch); given a well-formed tree every path returns a JSON
structure, so the `none` constructor of the result type is never produced
here.  Entity lookup: direct `list` children of a direct `list` wrapper
first, falling back to a whole-document search. -/
def xmlToJson (root : XmlNode) : Option JsonData :=
  let resultFields :=
    match findChild "result" root with
    | some r => r.children.map (fun c => (c.tag, c.text))
    | none => []
  let items :=
    match findChild "list" root with
    | some listElem =>
        let direct := listElem.children.filter (fun c : XmlNode => c.tag = "list")
        if direct.isEmpty then findallDesc "list" root else direct
    | none => findallDesc "list" root
  some { result := resultFields, list := items.map itemToDict }

/-! ## Store ingestion (`create_database.py`)

`create_database` inserts each record with
`INSERT OR REPLACE INTO companies (corp_code, ...) VALUES (...)` against a
table with `corp_code TEXT UNIQUE NOT NULL`: a conflicting row (same
`corp_code`) is deleted and the new row appended.  The table is modelled as
a row list; row order carries no meaning. -/

/-- One record of the corp-code JSON feed (`company.get(...)` fields). -/
structure CorpRecord where
  corp_code : Option String := none
  corp_name : Option String := none
  corp_eng_name : Option String := none
  stock_code : Option String := none
  modify_date : Option String := none
deriving Repr, DecidableEq

/-- One row of the `companies` table (the five inserted columns). -/
structure CompanyRow where
  corp_code : String
  corp_name : String
  corp_eng_name : String
  stock_code : String
  modify_date : String
deriving Repr, DecidableEq

/-- The tuple bound by the `INSERT` statement (defaults and
`stock_code.strip()` as in the source). -/
def toRow (c : CorpRecord) : CompanyRow :=
  { corp_code := c.corp_code.getD ""
    corp_name := c.corp_name.getD ""
    corp_eng_name := c.corp_eng_name.getD ""
    stock_code := pythonStrip (c.stock_code.getD "")
    modify_date := c.modify_date.getD "" }

/-- The `companies` table content. -/
abbrev Store := List CompanyRow

/-- Upsert: `INSERT OR REPLACE` keyed by the unique `corp_code`: drop any row with
the same key, append the new row. -/
def upsert (s : Store) (r : CompanyRow) : Store :=
  s.filter (fun x => x.corp_code ≠ r.corp_code) ++ [r]

/-- The insertion loop of `create_database` over the feed records. -/
def loadRecords (s : Store) (rs : List CorpRecord) : Store :=
  rs.foldl (fun st c => upsert st (toRow c)) s

/-- Row lookup by `corp_code`. -/
def lookupStore (s : Store) (k : String) : Option CompanyRow :=
  s.find? (fun r => r.corp_code = k)

/-! ## Company search (`app.py` `search_company`)

```
SELECT ... FROM companies WHERE corp_name LIKE '%q%'
ORDER BY CASE WHEN corp_name = q THEN 1 ELSE 0 END DESC,
         CASE WHEN stock_code != '' THEN 1 ELSE 0 END DESC,
         corp_name
LIMIT 20
```

`LIKE '%q%'` is modelled as the substring test (the fixed policy for the
non-ASCII names the store holds; SQLite's ASCII case folding and the `%`/`_`
wildcard characters of a raw query are outside the model), `ORDER BY` as a
sort by the three-part key — exact name match first, listed (non-empty
`stock_code`) next, then name in codepoint order, which for UTF-8 strings
coincides with SQLite's byte order. -/

/-- Codepoint-lexicographic `≤` on character lists. -/
def charListLe : List Char → List Char → Bool
  | [], _ => true
  | _ :: _, [] => false
  | a :: as, b :: bs =>
    if a.toNat < b.toNat then true
    else if b.toNat < a.toNat then false
    else charListLe as bs

/-- Rank for `CASE WHEN corp_name = q THEN 1 ELSE 0 END DESC` as an ascending rank. -/
def exactRank (q : String) (r : CompanyRow) : ℕ :=
  if r.corp_name = q then 0 else 1

/-- Rank for `CASE WHEN stock_code != '' THEN 1 ELSE 0 END DESC` as an ascending rank. -/
def listedRank (r : CompanyRow) : ℕ :=
  if r.stock_code ≠ "" then 0 else 1

/-- The `ORDER BY` key comparison, lexicographically. -/
def searchLeB (q : String) (a b : CompanyRow) : Bool :=
  if exactRank q a < exactRank q b then true
  else if exactRank q b < exactRank q a then false
  else if listedRank a < listedRank b then true
  else if listedRank b < listedRank a then false
  else charListLe a.corp_name.toList b.corp_name.toList

/-- The `ORDER BY` relation. -/
def searchLe (q : String) (a b : CompanyRow) : Prop :=
  searchLeB q a b = true

instance (q : String) : DecidableRel (searchLe q) :=
  fun a b => inferInstanceAs (Decidable (searchLeB q a b = true))

/-- Model of `search_company` of `app.py`: the SQL query on a table state. -/
def searchCompany (db : Store) (q : String) : List CompanyRow :=
  ((db.filter (fun r => strContains r.corp_name q)).insertionSort (searchLe q)).take 20

end CursorFs

/-! ## Derived definitions and concrete inputs used by the theorems -/

namespace CursorFs

/-- Two balance-sheet lines both matching the total-assets substring. -/
def c1Item1 : AccountData :=
  { account_name := "자산총계", fs_type := "OFS", statement_type := "BS"
    current_amount := 1, current_accumulated := 0
    previous_amount := 2, previous_accumulated := 0, currency := "KRW" }

/-- Second matching duplicate with different amounts. -/
def c1Item2 : AccountData :=
  { account_name := "자산총계", fs_type := "OFS", statement_type := "BS"
    current_amount := 3, current_accumulated := 0
    previous_amount := 4, previous_accumulated := 0, currency := "KRW" }

/-- Balance-sheet bucket with assets 100, liabilities 100, equity 0. -/
def c2BS : List AccountData :=
  [{ account_name := "자산총계", fs_type := "OFS", statement_type := "BS"
     current_amount := 100, current_accumulated := 0
     previous_amount := 100, previous_accumulated := 0, currency := "KRW" },
   { account_name := "부채총계", fs_type := "OFS", statement_type := "BS"
     current_amount := 100, current_accumulated := 0
     previous_amount := 100, previous_accumulated := 0, currency := "KRW" },
   { account_name := "자본총계", fs_type := "OFS", statement_type := "BS"
     current_amount := 0, current_accumulated := 0
     previous_amount := 0, previous_accumulated := 0, currency := "KRW" }]

/-- Income-statement bucket with revenue 50 (previous 40) and net income 10. -/
def c2IS : List AccountData :=
  [{ account_name := "매출액", fs_type := "OFS", statement_type := "IS"
     current_amount := 50, current_accumulated := 0
     previous_amount := 40, previous_accumulated := 0, currency := "KRW" },
   { account_name := "당기순이익", fs_type := "OFS", statement_type := "IS"
     current_amount := 10, current_accumulated := 0
     previous_amount := 10, previous_accumulated := 0, currency := "KRW" }]

/-- A feed document with no entity (`list`) node at all. -/
def noEntityRoot : XmlNode :=
  .node "result" none [.node "status" (some "000") []]

/-- The last feed record carrying key `k` (the row it would leave behind). -/
def lastKeyed (rs : List CorpRecord) (k : String) : Option CompanyRow :=
  (rs.reverse.find? (fun c => (toRow c).corp_code = k)).map toRow

/-- The `corp_code` column of the table. -/
def storeKeys (s : Store) : List String := s.map (fun r => r.corp_code)

/-- A concrete feed record. -/
def c4Record : CorpRecord :=
  { corp_code := some "00126380", corp_name := some "삼성전자"
    corp_eng_name := some "SAMSUNG ELECTRONICS CO,.LTD"
    stock_code := some "005930", modify_date := some "20230101" }

/-- A raw response with one item of each classification kind. -/
def c5Raw : RawResponse :=
  { error := none, status := some "000", message := none
    list := some
      [{ account_nm := some "자산총계", sj_div := some "BS" },
       { account_nm := some "매출액", sj_div := some "IS" },
       { account_nm := some "영업활동현금흐름", sj_div := some "CF" }] }

/-- A concrete error response (OpenDart "no data" status). -/
def c8Data : RawResponse :=
  { error := none, status := some "013", message := some "조회된 데이타가 없습니다.", list := none }

/-- The end-to-end scenario's raw statement response: one `BS` line
(자산총계, 1,000,000 / 900,000) and one `IS` line (매출액, 500,000 / 400,000). -/
def e2eRaw : RawResponse :=
  { error := none, status := some "000", message := none
    list := some
      [{ account_nm := some "자산총계", sj_div := some "BS"
         thstrm_amount := some "1,000,000", frmtrm_amount := some "900,000" },
       { account_nm := some "매출액", sj_div := some "IS"
         thstrm_amount := some "500,000", frmtrm_amount := some "400,000" }] }

/-- A non-current-assets line (비유동자산) with amounts 200 / 150 and a
non-current-liabilities line (비유동부채) with amounts 100 / 100. -/
def c10BS : List AccountData :=
  [{ account_name := "비유동자산", fs_type := "OFS", statement_type := "BS"
     current_amount := 200, current_accumulated := 0
     previous_amount := 150, previous_accumulated := 0, currency := "KRW" },
   { account_name := "비유동부채", fs_type := "OFS", statement_type := "BS"
     current_amount := 100, current_accumulated := 0
     previous_amount := 100, previous_accumulated := 0, currency := "KRW" }]

/-- Compare two rank numbers, deferring ties to `f`. -/
def natThenLe (x y : ℕ) (f : Bool) : Bool :=
  if x < y then true else if y < x then false else f

/-- A small concrete store: two listed companies and one unlisted exact-name
match for the query "삼성". -/
def c6Db : Store :=
  [{ corp_code := "1", corp_name := "삼성전자", corp_eng_name := ""
     stock_code := "005930", modify_date := "" },
   { corp_code := "2", corp_name := "삼성", corp_eng_name := ""
     stock_code := "", modify_date := "" },
   { corp_code := "3", corp_name := "현대차", corp_eng_name := ""
     stock_code := "005380", modify_date := "" }]

end CursorFs

/-! ## Helper lemmas -/

namespace CursorFs

/-- A `foldl` of point updates reads back, at each point, the value of the
last list element selecting that point (or the initial map's value). -/
theorem foldl_update_last {α γ β : Type*} [DecidableEq γ] (sel : α → Option γ) (val : α → β) :
    ∀ (l : List α) (init : γ → Option β) (m : γ),
      (l.foldl (updateStep sel val) init) m
      = (match l.reverse.find? (fun a => decide (sel a = some m)) with
         | some a => some (val a)
         | none => init m) := by
  intro l
  induction l with
  | nil => intro init m; rfl
  | cons a l ih =>
    intro init m
    rw [List.foldl_cons, ih, List.reverse_cons, List.find?_append]
    cases hfind : l.reverse.find? (fun x => decide (sel x = some m)) with
    | some b => rfl
    | none =>
      simp only [Option.none_or]
      cases hsel : sel a with
      | none => simp [List.find?, updateStep, hsel]
      | some g =>
        by_cases hg : g = m
        · subst hg
          simp [List.find?, updateStep, hsel, Function.update_same]
        · simp [List.find?, updateStep, hsel, hg, Function.update_noteq (Ne.symm hg)]

/-- Rounding zero gives zero: `round(0, 2) = 0`. -/
theorem round2_zero : round2 0 = 0 := by
  norm_num [round2, roundHalfToEven]

end CursorFs

/-! ## C1 — duplicate line items in metric extraction -/

namespace CursorFs


/-- C1 (counterexample): with two balance-sheet lines both containing
"자산총계" — the first with amounts (1, 2), the second with (3, 4) — the
extracted `total_assets` metric carries the second line's amounts, not the
first's: the first-occurrence-wins policy does not hold. -/
theorem first_match_wins_counterexample :
    (extractKeyMetrics [c1Item1, c1Item2] []).balance_sheet .total_assets ≠ some (1, 2) ∧
    (extractKeyMetrics [c1Item1, c1Item2] []).balance_sheet .total_assets = some (3, 4) := by
  constructor
  · decide
  · decide

/-- C1 (amended): in metric extraction the **last** matching line item in
source order determines a metric's `{current, previous}` values — each
match overwrites the previously stored pair — for every balance-sheet and
income-statement metric. -/
theorem last_match_wins :
    (∀ (items : List AccountData) (m : BSMetric),
        extractBS items m
          = (items.reverse.find? (fun i => decide (bsBranch i.account_name = some m))).map
              itemAmounts) ∧
    (∀ (items : List AccountData) (m : ISMetric),
        extractIS items m
          = (items.reverse.find? (fun i => decide (isBranch i.account_name = some m))).map
              itemAmounts) := by
  constructor
  · intro items m
    unfold extractBS
    rw [foldl_update_last (fun i => bsBranch i.account_name) itemAmounts items (fun _ => none) m]
    cases items.reverse.find? (fun i => decide (bsBranch i.account_name = some m)) <;> rfl
  · intro items m
    unfold extractIS
    rw [foldl_update_last (fun i => isBranch i.account_name) itemAmounts items (fun _ => none) m]
    cases items.reverse.find? (fun i => decide (isBranch i.account_name = some m)) <;> rfl

end CursorFs

/-! ## C2 — ratio guards when total equity is zero -/

namespace CursorFs


/-- C2 (counterexample): with `total_equity` resolved to current value `0`
(and `total_assets` resolved to the non-zero `100`), `equity_ratio` is
**present** in the ratios mapping, with value `0` — the claim that it is
absent whenever `total_equity = 0` fails: its guard tests `total_assets`,
its own denominator, not `total_equity`. -/
theorem ratio_guard_counterexample :
    (extractKeyMetrics c2BS c2IS).balance_sheet .total_equity = some (0, 0) ∧
    (extractKeyMetrics c2BS c2IS).ratios.equity_ratio = some 0 := by
  constructor
  · decide
  · have h1 : extractBS c2BS BSMetric.total_equity = some (0, 0) := by decide
    have h2 : extractBS c2BS BSMetric.total_assets = some (100, 100) := by decide
    show (calculateRatios (extractBS c2BS) (extractIS c2IS)).equity_ratio = some 0
    simp only [calculateRatios, h1, h2]
    norm_num [round2, roundHalfToEven]

/-- C2 (amended): when the resolved `total_equity` metric has current value
`0`, the ratios that divide by equity — `debt_to_equity_ratio` and `roe` —
are absent; `equity_ratio` remains **present with value 0** whenever
`total_assets` is resolved with a non-zero current value; and the ratios
not involving equity (`current_ratio`, `revenue_growth_rate`) are present
exactly as dictated by their own inputs and denominators. -/
theorem ratio_guard_equity_zero :
    ∀ (bs : BSMetric → Option (ℚ × ℚ)) (inc : ISMetric → Option (ℚ × ℚ)) (p : ℚ),
      bs .total_equity = some (0, p) →
      (calculateRatios bs inc).debt_to_equity_ratio = none ∧
      (calculateRatios bs inc).roe = none ∧
      (∀ ta : ℚ × ℚ, bs .total_assets = some ta → ta.1 ≠ 0 →
          (calculateRatios bs inc).equity_ratio = some 0) ∧
      (∀ ca cl : ℚ × ℚ, bs .current_assets = some ca → bs .current_liabilities = some cl →
          cl.1 ≠ 0 →
          (calculateRatios bs inc).current_ratio = some (round2 (ca.1 / cl.1 * 100))) ∧
      (∀ rev : ℚ × ℚ, inc .revenue = some rev → rev.2 ≠ 0 →
          (calculateRatios bs inc).revenue_growth_rate
            = some (round2 ((rev.1 - rev.2) / rev.2 * 100))) := by
  intro bs inc p h
  refine ⟨?_, ?_, ?_, ?_, ?_⟩
  · simp only [calculateRatios, h]
    cases bs .total_liabilities <;> simp
  · simp only [calculateRatios, h]
    cases inc .net_income <;> simp
  · intro ta hta h1
    simp only [calculateRatios, h, hta]
    simp [h1, zero_div, round2_zero]
  · intro ca cl hca hcl h1
    simp only [calculateRatios, hca, hcl]
    simp [h1]
  · intro rev hrev h1
    simp only [calculateRatios, hrev]
    simp [h1]

/-- C2 (witness): the amended theorem applied to the concrete extraction
with equity 0 and assets 100. -/
theorem ratio_guard_equity_zero_witness :
    (calculateRatios (extractBS c2BS) (extractIS c2IS)).debt_to_equity_ratio = none ∧
    (calculateRatios (extractBS c2BS) (extractIS c2IS)).roe = none ∧
    (calculateRatios (extractBS c2BS) (extractIS c2IS)).equity_ratio = some 0 := by
  have h := ratio_guard_equity_zero (extractBS c2BS) (extractIS c2IS) 0 (by decide)
  exact ⟨h.1, h.2.1, h.2.2.1 (100, 100) (by decide) (by norm_num)⟩

end CursorFs

/-! ## C3 — ParseError exactly on zero entity nodes -/

namespace CursorFs

/-- A subtree rooted at a node with the searched tag is a non-empty hit list. -/
theorem nodesWithTag_ne_nil (t : String) (c : XmlNode) (h : c.tag = t) :
    nodesWithTag t c ≠ [] := by
  cases c with
  | node tg tx cs =>
    simp only [XmlNode.tag] at h
    simp [nodesWithTag, h]

/-- If a whole forest has no hits, no root of the forest carries the tag. -/
theorem tag_ne_of_nodesWithTagList_nil (t : String) :
    ∀ (cs : List XmlNode), nodesWithTagList t cs = [] → ∀ c ∈ cs, c.tag ≠ t := by
  intro cs
  induction cs with
  | nil => intro _ c hc; cases hc
  | cons a cs ih =>
    intro h c hc
    rw [nodesWithTagList] at h
    rcases List.append_eq_nil.mp h with ⟨ha, hcs⟩
    rcases List.mem_cons.mp hc with rfl | hc
    · exact fun ht => nodesWithTag_ne_nil t c ht ha
    · exact ih hcs c hc

/-- With zero descendants carrying the tag, `root.find(tag)` finds nothing. -/
theorem findChild_eq_none_of_no_desc (t : String) (root : XmlNode)
    (h : findallDesc t root = []) : findChild t root = none := by
  rw [findChild, List.find?_eq_none]
  intro c hc
  have := tag_ne_of_nodesWithTagList_nil t root.children h c hc
  simpa using this


/-- C3 (counterexample): `noEntityRoot` contains zero entity nodes, yet the
downloader's bulk-feed parser (`_xml_to_json`) does **not** fail: it returns
a normal JSON structure with an empty record list, so "fails with a
ParseError exactly when zero entity nodes can be found" is false for it. -/
theorem parse_error_counterexample :
    findallDesc "list" noEntityRoot = [] ∧
    xmlToJson noEntityRoot = some { result := [], list := [] } ∧
    xmlToJson noEntityRoot ≠ none := by
  refine ⟨rfl, rfl, ?_⟩
  intro h
  rw [(rfl : xmlToJson noEntityRoot = some { result := [], list := [] })] at h
  cases h

/-- C3 (amended): the standalone converter (`convert_xml_to_json`) fails
exactly when zero entity nodes are found anywhere in the document, and
never fails when at least one exists; the downloader's converter
(`_xml_to_json`) never fails on a parsed tree — with zero entity nodes it
returns a normal structure whose record list is empty. -/
theorem parse_error_zero_entities :
    ∀ root : XmlNode,
      (convertXmlToJson root = none ↔ findallDesc "list" root = []) ∧
      (∃ j : JsonData, xmlToJson root = some j ∧
        (findallDesc "list" root = [] → j.list = [])) := by
  intro root
  constructor
  · constructor
    · intro h
      rw [convertXmlToJson] at h
      by_cases he : (findallDesc "list" root).isEmpty
      · exact List.isEmpty_iff.mp he
      · simp [he] at h
    · intro h
      simp [convertXmlToJson, h]
  · refine ⟨_, rfl, fun h => ?_⟩
    have hc : findChild "list" root = none := findChild_eq_none_of_no_desc "list" root h
    simp only [xmlToJson, hc, h]
    rfl

/-- C3 (witness): the amended theorem at the concrete zero-entity document. -/
theorem parse_error_zero_entities_witness :
    convertXmlToJson noEntityRoot = none ∧
    (∃ j : JsonData, xmlToJson noEntityRoot = some j ∧ j.list = []) := by
  have h := parse_error_zero_entities noEntityRoot
  obtain ⟨j, hj, hl⟩ := h.2
  exact ⟨h.1.mpr rfl, ⟨j, hj, hl rfl⟩⟩

end CursorFs

/-! ## C4 — idempotent upsert keyed by corp_code -/

namespace CursorFs

/-- Filtering out key `c` leaves lookups of a different key `k` unchanged. -/
theorem find?_filter_key_ne (s : Store) (c k : String) (h : c ≠ k) :
    (s.filter (fun x => x.corp_code ≠ c)).find? (fun r => r.corp_code = k)
      = s.find? (fun r => r.corp_code = k) := by
  rw [List.find?_filter]
  congr 1
  funext a
  by_cases hak : a.corp_code = k
  · have hac : ¬a.corp_code = c := fun hh => h (by rw [← hh, hak])
    simp [hak, hac, Ne.symm h]
  · simp [hak]

/-- After filtering out key `c`, looking up `c` finds nothing. -/
theorem find?_filter_key_self (s : Store) (c : String) :
    (s.filter (fun x => x.corp_code ≠ c)).find? (fun r => r.corp_code = c) = none := by
  rw [List.find?_filter]
  rw [List.find?_eq_none]
  intro a _
  by_cases hac : a.corp_code = c <;> simp [hac]

/-- Read-back after `INSERT OR REPLACE`: the new row under its key, everything
else untouched. -/
theorem lookup_upsert (s : Store) (r : CompanyRow) (k : String) :
    lookupStore (upsert s r) k = if r.corp_code = k then some r else lookupStore s k := by
  rw [lookupStore, upsert, List.find?_append]
  by_cases h : r.corp_code = k
  · subst h
    rw [find?_filter_key_self]
    simp [List.find?_cons]
  · rw [if_neg h, find?_filter_key_ne s r.corp_code k h]
    simp [List.find?_cons, h, lookupStore]


/-- Ingestion read-back: the last feed record with the key wins; keys not
in the feed read from the prior store content. -/
theorem lookup_loadRecords (rs : List CorpRecord) :
    ∀ (s : Store) (k : String),
      lookupStore (loadRecords s rs) k
        = (match lastKeyed rs k with
           | some r => some r
           | none => lookupStore s k) := by
  induction rs with
  | nil => intro s k; rfl
  | cons c rs ih =>
    intro s k
    have hstep : loadRecords s (c :: rs) = loadRecords (upsert s (toRow c)) rs := rfl
    rw [hstep, ih]
    simp only [lastKeyed, List.reverse_cons, List.find?_append]
    cases hl : rs.reverse.find? (fun x => decide ((toRow x).corp_code = k)) with
    | some b => simp [hl]
    | none =>
      simp only [hl, Option.none_or]
      rw [lookup_upsert]
      by_cases hc : (toRow c).corp_code = k
      · simp [List.find?_cons, hc]
      · simp [List.find?_cons, hc]


/-- Key uniqueness is preserved by `INSERT OR REPLACE`. -/
theorem storeKeys_nodup_upsert (s : Store) (r : CompanyRow)
    (h : (storeKeys s).Nodup) : (storeKeys (upsert s r)).Nodup := by
  rw [storeKeys, upsert, List.map_append]
  apply List.Nodup.append
  · exact h.sublist ((List.filter_sublist s).map _)
  · simp
  · intro x hx hx2
    have hxr : x = r.corp_code := by simpa [storeKeys] using hx2
    rcases List.mem_map.mp hx with ⟨y, hy, hyx⟩
    have hne := (List.mem_filter.mp hy).2
    simp only [decide_eq_true_eq] at hne
    exact hne (by rw [hyx, hxr])

/-- The whole ingestion run preserves key uniqueness. -/
theorem storeKeys_nodup_load (rs : List CorpRecord) :
    ∀ s : Store, (storeKeys s).Nodup → (storeKeys (loadRecords s rs)).Nodup := by
  induction rs with
  | nil => intro s h; exact h
  | cons c rs ih => intro s h; exact ih _ (storeKeys_nodup_upsert s (toRow c) h)

/-- C4: store ingestion is an idempotent upsert keyed by `corp_code`:
loading a record sequence twice reads back, per `corp_code`, exactly as
loading it once; a record whose key already exists replaces the prior row
entirely; and ingestion never creates a duplicate key. -/
theorem store_upsert_idempotent :
    (∀ (s : Store) (rs : List CorpRecord) (k : String),
        lookupStore (loadRecords (loadRecords s rs) rs) k
          = lookupStore (loadRecords s rs) k) ∧
    (∀ (s : Store) (c : CorpRecord),
        lookupStore (loadRecords s [c]) (toRow c).corp_code = some (toRow c)) ∧
    (∀ (s : Store) (rs : List CorpRecord),
        (storeKeys s).Nodup → (storeKeys (loadRecords s rs)).Nodup) := by
  refine ⟨?_, ?_, ?_⟩
  · intro s rs k
    rw [lookup_loadRecords, lookup_loadRecords]
    cases h : lastKeyed rs k with
    | some r => rfl
    | none => rfl
  · intro s c
    show lookupStore (upsert s (toRow c)) (toRow c).corp_code = some (toRow c)
    rw [lookup_upsert, if_pos rfl]
  · intro s rs h
    exact storeKeys_nodup_load rs s h


/-- C4 (witness): the three conjuncts at a concrete store and feed. -/
theorem store_upsert_idempotent_witness :
    lookupStore (loadRecords (loadRecords [] [c4Record]) [c4Record]) "00126380"
      = lookupStore (loadRecords [] [c4Record]) "00126380" ∧
    lookupStore (loadRecords [] [c4Record]) (toRow c4Record).corp_code = some (toRow c4Record) ∧
    (storeKeys (loadRecords [] [c4Record])).Nodup := by
  refine ⟨store_upsert_idempotent.1 [] [c4Record] "00126380",
    store_upsert_idempotent.2.1 [] c4Record,
    store_upsert_idempotent.2.2 [] [c4Record] ?_⟩
  decide

end CursorFs

/-! ## C5 — classification completeness -/

namespace CursorFs

/-- The balance-sheet bucket is exactly the `BS`-coded items, in order. -/
theorem classify_balance_sheet (items : List RawItem) :
    (classifyItems items).balance_sheet
      = (items.filter (fun i => i.sj_div.getD "" = "BS")).map toAccountData := by
  induction items with
  | nil => rfl
  | cons i rest ih =>
    by_cases hbs : i.sj_div.getD "" = "BS"
    · simp [classifyItems, List.filter_cons, hbs, ih]
    · by_cases his : i.sj_div.getD "" = "IS"
      · simp [classifyItems, List.filter_cons, hbs, his, ih]
      · simp [classifyItems, List.filter_cons, hbs, his, ih]

/-- The income-statement bucket is exactly the `IS`-coded items, in order. -/
theorem classify_income_statement (items : List RawItem) :
    (classifyItems items).income_statement
      = (items.filter (fun i => i.sj_div.getD "" = "IS")).map toAccountData := by
  induction items with
  | nil => rfl
  | cons i rest ih =>
    by_cases hbs : i.sj_div.getD "" = "BS"
    · have his : ¬i.sj_div.getD "" = "IS" := by rw [hbs]; decide
      simp [classifyItems, List.filter_cons, hbs, his, ih]
    · by_cases his : i.sj_div.getD "" = "IS"
      · simp [classifyItems, List.filter_cons, hbs, his, ih]
      · simp [classifyItems, List.filter_cons, hbs, his, ih]

/-- The third bucket is exactly the items with any other code, in order. -/
theorem classify_cash_flow (items : List RawItem) :
    (classifyItems items).cash_flow
      = (items.filter (fun i => i.sj_div.getD "" ≠ "BS" ∧ i.sj_div.getD "" ≠ "IS")).map
          toAccountData := by
  induction items with
  | nil => rfl
  | cons i rest ih =>
    by_cases hbs : i.sj_div.getD "" = "BS"
    · simp [classifyItems, List.filter_cons, hbs, ih]
    · by_cases his : i.sj_div.getD "" = "IS"
      · simp [classifyItems, List.filter_cons, hbs, his, ih]
      · simp [classifyItems, List.filter_cons, hbs, his, ih]

/-- Bucket sizes sum to the input line-item count. -/
theorem classify_length (items : List RawItem) :
    (classifyItems items).balance_sheet.length
      + (classifyItems items).income_statement.length
      + (classifyItems items).cash_flow.length = items.length := by
  induction items with
  | nil => rfl
  | cons i rest ih =>
    by_cases hbs : i.sj_div.getD "" = "BS"
    · simp only [classifyItems, hbs, if_pos, List.length_cons]
      simp only [List.length_cons] at *
      omega
    · by_cases his : i.sj_div.getD "" = "IS"
      · simp only [classifyItems, hbs, his, if_neg, if_pos, List.length_cons]
        simp [List.length_cons] at *
        omega
      · simp only [classifyItems, hbs, his, if_neg, List.length_cons]
        simp [List.length_cons, hbs, his] at *
        omega

/-- C5: for every non-error raw response, normalization classifies every
line item into exactly one of the three buckets — `BS` to the
balance-sheet bucket, `IS` to the income-statement bucket, every other
code (unrecognized ones included) to the third bucket — and the three
bucket sizes sum to the input line-item count. -/
theorem classification_complete :
    ∀ raw : RawResponse, raw.error = none →
      formatFinancialData raw = .ok (mkFormatted raw) ∧
      (mkFormatted raw).financial_statements.balance_sheet
        = ((raw.list.getD []).filter (fun i => i.sj_div.getD "" = "BS")).map toAccountData ∧
      (mkFormatted raw).financial_statements.income_statement
        = ((raw.list.getD []).filter (fun i => i.sj_div.getD "" = "IS")).map toAccountData ∧
      (mkFormatted raw).financial_statements.cash_flow
        = ((raw.list.getD []).filter
            (fun i => i.sj_div.getD "" ≠ "BS" ∧ i.sj_div.getD "" ≠ "IS")).map toAccountData ∧
      (mkFormatted raw).financial_statements.balance_sheet.length
        + (mkFormatted raw).financial_statements.income_statement.length
        + (mkFormatted raw).financial_statements.cash_flow.length
        = (raw.list.getD []).length := by
  intro raw h
  have hfs : (mkFormatted raw).financial_statements = classifyItems (raw.list.getD []) := rfl
  refine ⟨?_, ?_, ?_, ?_, ?_⟩
  · simp [formatFinancialData, h]
  · rw [hfs, classify_balance_sheet]
  · rw [hfs, classify_income_statement]
  · rw [hfs, classify_cash_flow]
  · rw [hfs, classify_length]


/-- C5 (witness): the classification at a concrete three-item response. -/
theorem classification_complete_witness :
    formatFinancialData c5Raw = .ok (mkFormatted c5Raw) ∧
    (mkFormatted c5Raw).financial_statements.balance_sheet.length
      + (mkFormatted c5Raw).financial_statements.income_statement.length
      + (mkFormatted c5Raw).financial_statements.cash_flow.length
      = (c5Raw.list.getD []).length := by
  have h := classification_complete c5Raw rfl
  exact ⟨h.1, h.2.2.2.2⟩

end CursorFs

/-! ## C7 — amount coercion -/

namespace CursorFs

/-- C7: amount coercion is total and yields `1234567.0` on `"1,234,567"`
(thousands separators stripped, decimal parse), `0.0` on the empty string,
`0.0` on an absent value (the call sites' `.get(..., '0')` default), and
`0.0` on every string whose comma-stripped form is not numeric. -/
theorem parse_amount_spec :
    parseAmount "1,234,567" = 1234567 ∧
    parseAmount "" = 0 ∧
    parseAmount ((none : Option String).getD "0") = 0 ∧
    (∀ s : String, parsePyFloat? (removeCommas s) = none → parseAmount s = 0) := by
  refine ⟨by decide, by decide, by decide, ?_⟩
  intro s h
  by_cases hs : s = ""
  · simp [parseAmount, hs]
  · simp [parseAmount, hs, h]

/-- C7 (witness): the non-numeric branch at the concrete string `"abc"`. -/
theorem parse_amount_spec_witness :
    parsePyFloat? (removeCommas "abc") = none ∧ parseAmount "abc" = 0 :=
  ⟨by decide, parse_amount_spec.2.2.2 "abc" (by decide)⟩

end CursorFs

/-! ## C8 — source-error propagation -/

namespace CursorFs

/-- C8: a raw statement response with a non-success status is turned into
an error record whose message is preserved verbatim, and normalization
passes that record through unchanged as a source-error result — no
canonical structure (no buckets) is built from it. -/
theorem source_error_propagation :
    ∀ data : RawResponse, data.status ≠ some "000" →
      getFinancialStatement data
        = { error := some (data.message.getD "알 수 없는 오류"), status := none,
            message := none, list := none } ∧
      (∀ m : String, data.message = some m → (getFinancialStatement data).error = some m) ∧
      formatFinancialData (getFinancialStatement data)
        = .sourceError (getFinancialStatement data) := by
  intro data h
  have hg : getFinancialStatement data
      = { error := some (data.message.getD "알 수 없는 오류"), status := none,
          message := none, list := none } := by
    simp [getFinancialStatement, h]
  refine ⟨hg, ?_, ?_⟩
  · intro m hm
    rw [hg]
    simp [hm]
  · rw [hg]
    simp [formatFinancialData]


/-- C8 (witness): the propagation at the concrete error response. -/
theorem source_error_propagation_witness :
    (getFinancialStatement c8Data).error = some "조회된 데이타가 없습니다." ∧
    formatFinancialData (getFinancialStatement c8Data)
      = .sourceError (getFinancialStatement c8Data) := by
  have h := source_error_propagation c8Data (by decide)
  exact ⟨h.2.1 "조회된 데이타가 없습니다." rfl, h.2.2⟩

end CursorFs

/-! ## C9 — revenue growth rate -/

namespace CursorFs

/-- The revenue-growth branch of `_calculate_ratios`. -/
theorem calcRatios_revenue_growth (bs : BSMetric → Option (ℚ × ℚ))
    (inc : ISMetric → Option (ℚ × ℚ)) (c p : ℚ)
    (h : inc .revenue = some (c, p)) (hp : p ≠ 0) :
    (calculateRatios bs inc).revenue_growth_rate = some (round2 ((c - p) / p * 100)) := by
  simp only [calculateRatios, h]
  simp [hp]


/-- C9: whenever the revenue metric is resolved with a non-zero previous
value, `revenue_growth_rate = round2 ((current − previous) / previous ×
100)`; and in the end-to-end scenario the response normalizes to one
balance-sheet and one income-statement entry and the rate computes to 25. -/
theorem revenue_growth_rate_spec :
    (∀ (bs : BSMetric → Option (ℚ × ℚ)) (inc : ISMetric → Option (ℚ × ℚ)) (c p : ℚ),
        inc .revenue = some (c, p) → p ≠ 0 →
        (calculateRatios bs inc).revenue_growth_rate = some (round2 ((c - p) / p * 100))) ∧
    formatFinancialData e2eRaw = .ok (mkFormatted e2eRaw) ∧
    (mkFormatted e2eRaw).financial_statements.balance_sheet.length = 1 ∧
    (mkFormatted e2eRaw).financial_statements.income_statement.length = 1 ∧
    (extractKeyMetrics (mkFormatted e2eRaw).financial_statements.balance_sheet
        (mkFormatted e2eRaw).financial_statements.income_statement).ratios.revenue_growth_rate
      = some 25 := by
  refine ⟨fun bs inc c p h hp => calcRatios_revenue_growth bs inc c p h hp,
    rfl, by decide, by decide, ?_⟩
  have hrev : extractIS (mkFormatted e2eRaw).financial_statements.income_statement
      ISMetric.revenue = some (500000, 400000) := by decide
  have h := calcRatios_revenue_growth
    (extractBS (mkFormatted e2eRaw).financial_statements.balance_sheet)
    (extractIS (mkFormatted e2eRaw).financial_statements.income_statement)
    500000 400000 hrev (by norm_num)
  have hkm : (extractKeyMetrics (mkFormatted e2eRaw).financial_statements.balance_sheet
      (mkFormatted e2eRaw).financial_statements.income_statement).ratios
      = calculateRatios (extractBS (mkFormatted e2eRaw).financial_statements.balance_sheet)
          (extractIS (mkFormatted e2eRaw).financial_statements.income_statement) := rfl
  rw [hkm, h]
  norm_num [round2, roundHalfToEven]

/-- C9 (witness): the general formula at concrete metric mappings with
revenue 500,000 over 400,000. -/
theorem revenue_growth_rate_spec_witness :
    (calculateRatios (fun _ => none) (fun _ => some ((500000 : ℚ), 400000))).revenue_growth_rate
      = some (round2 ((500000 - 400000) / 400000 * 100)) :=
  revenue_growth_rate_spec.1 (fun _ => none) (fun _ => some ((500000 : ℚ), 400000))
    500000 400000 rfl (by norm_num)

end CursorFs

/-! ## C10 — no current/non-current distinction in the matcher -/

namespace CursorFs


/-- C10: the matcher does not distinguish current from non-current lines:
any balance-sheet line containing "유동자산" (resp. "유동부채") that matches
none of the earlier-tested total substrings is assigned to the
`current_assets` (resp. `current_liabilities`) metric — in particular the
non-current lines "비유동자산" and "비유동부채" are — so `current_ratio` is
computed from non-current amounts (here 200/100 → 200). -/
theorem noncurrent_fills_current_metrics :
    (∀ name : String,
        strContains name "유동자산" = true →
        strContains name "자산총계" = false → strContains name "자산 총계" = false →
        strContains name "자본총계" = false → strContains name "자본 총계" = false →
        strContains name "부채총계" = false → strContains name "부채 총계" = false →
        bsBranch name = some .current_assets) ∧
    (∀ name : String,
        strContains name "유동부채" = true → strContains name "유동자산" = false →
        strContains name "자산총계" = false → strContains name "자산 총계" = false →
        strContains name "자본총계" = false → strContains name "자본 총계" = false →
        strContains name "부채총계" = false → strContains name "부채 총계" = false →
        bsBranch name = some .current_liabilities) ∧
    bsBranch "비유동자산" = some .current_assets ∧
    bsBranch "비유동부채" = some .current_liabilities ∧
    (extractKeyMetrics c10BS []).balance_sheet .current_assets = some (200, 150) ∧
    (extractKeyMetrics c10BS []).balance_sheet .current_liabilities = some (100, 100) ∧
    (extractKeyMetrics c10BS []).ratios.current_ratio = some 200 := by
  refine ⟨?_, ?_, by decide, by decide, by decide, by decide, ?_⟩
  · intro name h1 h2 h3 h4 h5 h6 h7
    simp [bsBranch, h1, h2, h3, h4, h5, h6, h7]
  · intro name h1 h2 h3 h4 h5 h6 h7 h8
    simp [bsBranch, h1, h2, h3, h4, h5, h6, h7, h8]
  · have hca : extractBS c10BS BSMetric.current_assets = some (200, 150) := by decide
    have hcl : extractBS c10BS BSMetric.current_liabilities = some (100, 100) := by decide
    have hkm : (extractKeyMetrics c10BS []).ratios
        = calculateRatios (extractBS c10BS) (extractIS []) := rfl
    rw [hkm]
    simp only [calculateRatios, hca, hcl]
    norm_num [round2, roundHalfToEven]

/-- C10 (witness): the general matcher conjuncts at the concrete
non-current line names. -/
theorem noncurrent_fills_current_metrics_witness :
    bsBranch "장기비유동자산" = some .current_assets ∧
    bsBranch "장기비유동부채" = some .current_liabilities :=
  ⟨noncurrent_fills_current_metrics.1 "장기비유동자산"
      (by decide) (by decide) (by decide) (by decide) (by decide) (by decide) (by decide),
    noncurrent_fills_current_metrics.2.1 "장기비유동부채"
      (by decide) (by decide) (by decide) (by decide) (by decide) (by decide) (by decide)
      (by decide)⟩

end CursorFs

/-! ## C6 — search result ordering -/

namespace CursorFs


/-- The search comparator is the rank-then-rank-then-name chain. -/
theorem searchLeB_eq (q : String) (a b : CompanyRow) :
    searchLeB q a b
      = natThenLe (exactRank q a) (exactRank q b)
          (natThenLe (listedRank a) (listedRank b)
            (charListLe a.corp_name.toList b.corp_name.toList)) := rfl

/-- Totality of `charListLe`. -/
theorem charListLe_total : ∀ a b : List Char, charListLe a b = true ∨ charListLe b a = true := by
  intro a
  induction a with
  | nil => intro b; left; cases b <;> rfl
  | cons x xs ih =>
    intro b
    cases b with
    | nil => right; rfl
    | cons y ys =>
      by_cases h1 : x.toNat < y.toNat
      · left; simp [charListLe, h1]
      · by_cases h2 : y.toNat < x.toNat
        · right; simp [charListLe, h2]
        · rcases ih ys with h | h
          · left; simp [charListLe, h1, h2, h]
          · right; simp [charListLe, h1, h2, h]

/-- Transitivity of `charListLe`. -/
theorem charListLe_trans :
    ∀ a b c : List Char, charListLe a b = true → charListLe b c = true →
      charListLe a c = true := by
  intro a
  induction a with
  | nil => intro b c _ _; rfl
  | cons x xs ih =>
    intro b c hab hbc
    cases b with
    | nil => simp [charListLe] at hab
    | cons y ys =>
      cases c with
      | nil => simp [charListLe] at hbc
      | cons z zs =>
        simp only [charListLe] at hab hbc ⊢
        by_cases hxy : x.toNat < y.toNat <;> by_cases hyx : y.toNat < x.toNat <;>
          by_cases hyz : y.toNat < z.toNat <;> by_cases hzy : z.toNat < y.toNat <;>
          simp [hxy, hyx, hyz, hzy] at hab hbc ⊢ <;>
          first
            | omega
            | (constructor <;> omega)
            | (right; exact ⟨by omega, ih ys zs hab hbc⟩)

/-- Totality of `natThenLe` when the tie-breakers are total. -/
theorem natThenLe_total (x y : ℕ) (f g : Bool) (hfg : f = true ∨ g = true) :
    natThenLe x y f = true ∨ natThenLe y x g = true := by
  unfold natThenLe
  rcases Nat.lt_trichotomy x y with h | h | h
  · left; simp [h]
  · subst h
    simpa using hfg
  · right; simp [h]

/-- Transitivity of `natThenLe` when the tie-breakers chain. -/
theorem natThenLe_trans (x y z : ℕ) (f g k : Bool)
    (h1 : natThenLe x y f = true) (h2 : natThenLe y z g = true)
    (hc : f = true → g = true → k = true) :
    natThenLe x z k = true := by
  unfold natThenLe at h1 h2 ⊢
  by_cases hxy : x < y <;> by_cases hyx : y < x <;>
    by_cases hyz : y < z <;> by_cases hzy : z < y <;>
    simp [hxy, hyx, hyz, hzy] at h1 h2 ⊢ <;>
    first
      | omega
      | (constructor <;> omega)
      | exact hc h1 h2
      | (right; exact ⟨by omega, hc h1 h2⟩)

/-- The search ordering is total. -/
theorem searchLe_total (q : String) (a b : CompanyRow) :
    searchLe q a b ∨ searchLe q b a := by
  unfold searchLe
  rw [searchLeB_eq, searchLeB_eq]
  exact natThenLe_total _ _ _ _ (natThenLe_total _ _ _ _ (charListLe_total _ _))

/-- The search ordering is transitive. -/
theorem searchLe_trans (q : String) (a b c : CompanyRow)
    (h1 : searchLe q a b) (h2 : searchLe q b c) : searchLe q a c := by
  unfold searchLe at *
  rw [searchLeB_eq] at *
  refine natThenLe_trans _ _ _ _ _ _ h1 h2 (fun hf hg => ?_)
  exact natThenLe_trans _ _ _ _ _ _ hf hg
    (fun hf2 hg2 => charListLe_trans _ _ _ hf2 hg2)

/-- C6: `search_company` returns at most 20 rows; every returned row comes
from the store and matches the query as a substring of its `corp_name`;
and the result is ordered by the priority chain — exact name match first,
then listed (non-empty `stock_code`) before unlisted, then name order as
the final tie-break. -/
theorem search_company_spec :
    ∀ (db : Store) (q : String),
      (searchCompany db q).length ≤ 20 ∧
      (∀ r, r ∈ searchCompany db q → r ∈ db ∧ strContains r.corp_name q = true) ∧
      (searchCompany db q).Sorted (searchLe q) := by
  intro db q
  refine ⟨List.length_take_le _ _, ?_, ?_⟩
  · intro r hr
    have hr2 : r ∈ (db.filter (fun x => strContains x.corp_name q)).insertionSort (searchLe q) :=
      List.mem_of_mem_take hr
    rw [List.mem_insertionSort] at hr2
    exact List.mem_filter.mp hr2
  · haveI ht : IsTotal CompanyRow (searchLe q) := ⟨searchLe_total q⟩
    haveI htr : IsTrans CompanyRow (searchLe q) := ⟨searchLe_trans q⟩
    have hs : ((db.filter (fun x => strContains x.corp_name q)).insertionSort
        (searchLe q)).Sorted (searchLe q) := List.sorted_insertionSort (searchLe q) _
    exact hs.sublist (List.take_sublist _ _)


/-- C6 (witness): membership facts at the concrete store and query. -/
theorem search_company_spec_witness :
    ({ corp_code := "1", corp_name := "삼성전자", corp_eng_name := ""
       stock_code := "005930", modify_date := "" } : CompanyRow) ∈ c6Db ∧
    strContains "삼성전자" "삼성" = true := by
  have h := (search_company_spec c6Db "삼성").2.1
    { corp_code := "1", corp_name := "삼성전자", corp_eng_name := ""
      stock_code := "005930", modify_date := "" } (by decide)
  exact h

end CursorFs
